import Mathlib

/-!
Verification of the chatbot message-handling contract of
`src/ai-services/src/chatbot/intelligent_agent.py` and
`src/ai-services/src/api/routes/chatbot.py`.

The embedding is functional: the Redis counter store is an association
list of entries with absolute expiry times, time is an explicit `now : Nat`
parameter, Python exceptions are `Except String` values, and a Python dict
whose key set varies between branches is a structure with `Option` fields
(`none` means the key is absent from the dict).
-/

/-- A Redis value at a key: the counter and an optional absolute expiry
time. `expiry = none` means the key has no TTL (INCR on an absent key
creates it without a TTL; EXPIRE then installs one). -/
structure RedisEntry where
  count : Nat
  expiry : Option Nat
deriving Repr, DecidableEq

/-- The Redis store together with an availability flag: when `up` is
`false` every operation raises (models connection errors, which the
service code catches). -/
structure RedisState where
  up : Bool
  store : List (String × RedisEntry)
deriving Repr, DecidableEq

/-- A key is live at time `now` when it has no TTL or its expiry has not
been reached (Redis deletes the key once `now ≥ expiry`). -/
def entryLive (now : Nat) (e : RedisEntry) : Bool :=
  match e.expiry with
  | none => true
  | some t => now < t

/-- Association-list lookup by key. -/
def storeLookup : List (String × RedisEntry) → String → Option RedisEntry
  | [], _ => none
  | (k, v) :: rest, key => if k = key then some v else storeLookup rest key

/-- Association-list update, creating the key at the end if absent. -/
def storeSet : List (String × RedisEntry) → String → RedisEntry → List (String × RedisEntry)
  | [], key, v => [(key, v)]
  | (k, v0) :: rest, key, v =>
      if k = key then (key, v) :: rest else (k, v0) :: storeSet rest key v

/-- Lookup that hides expired entries, as Redis does. -/
def redisLookup (s : RedisState) (now : Nat) (key : String) : Option RedisEntry :=
  match storeLookup s.store key with
  | some e => if entryLive now e then some e else none
  | none => none

/-- Redis GET: raises when the store is down, otherwise the live counter
value (or `none` when the key is absent or expired). -/
def redisGet (s : RedisState) (now : Nat) (key : String) : Except String (Option Nat) :=
  if s.up then Except.ok ((redisLookup s now key).map (fun e => e.count))
  else Except.error "connection error"

/-- Redis INCR: raises when the store is down; otherwise increments the
live counter (keeping its TTL) or creates the key with value 1 and no
TTL, returning the new value and store. -/
def redisIncr (s : RedisState) (now : Nat) (key : String) :
    Except String (Nat × RedisState) :=
  if s.up then
    match redisLookup s now key with
    | some e =>
        Except.ok (e.count + 1,
          { s with store := storeSet s.store key { e with count := e.count + 1 } })
    | none =>
        Except.ok (1,
          { s with store := storeSet s.store key { count := 1, expiry := none } })
  else Except.error "connection error"

/-- Redis EXPIRE key ttl: raises when the store is down; otherwise sets
the live key's expiry to `now + ttl`. -/
def redisExpire (s : RedisState) (now : Nat) (key : String) (ttl : Nat) :
    Except String (Bool × RedisState) :=
  if s.up then
    match redisLookup s now key with
    | some e =>
        Except.ok (true,
          { s with store := storeSet s.store key { e with expiry := some (now + ttl) } })
    | none => Except.ok (false, s)
  else Except.error "connection error"

/-- The rate-limit key used by `ChatbotService` (`f"rate_limit:{user_id}"`). -/
def rateLimitKey (user_id : String) : String := "rate_limit:" ++ user_id

namespace ChatbotService

/-- `ChatbotService._is_rate_limited`: `False` when there is no Redis
client; otherwise GET the counter and test `int(count or 0) > 30`;
any exception is caught and yields `False`. -/
def is_rate_limited (client : Option RedisState) (now : Nat) (user_id : String) : Bool :=
  match client with
  | none => false
  | some s =>
    match redisGet s now (rateLimitKey user_id) with
    | Except.ok c => decide (c.getD 0 > 30)
    | Except.error _ => false

/-- `ChatbotService._update_rate_limit`: no-op when there is no Redis
client; otherwise INCR the counter then EXPIRE it to 60 time units from
now; exceptions are caught and logged, keeping whatever state the store
reached. -/
def update_rate_limit (client : Option RedisState) (now : Nat) (user_id : String) :
    Option RedisState :=
  match client with
  | none => none
  | some s =>
    match redisIncr s now (rateLimitKey user_id) with
    | Except.error _ => some s
    | Except.ok (_, s1) =>
      match redisExpire s1 now (rateLimitKey user_id) 60 with
      | Except.error _ => some s1
      | Except.ok (_, s2) => some s2

end ChatbotService

/-- The database-backed conversation store: session id to ordered list
of (user message, ai response, timestamp) turns, plus an availability
flag (when `up` is `false`, opening a db session raises; the agent code
catches this). -/
structure ConvStore where
  up : Bool
  sessions : List (String × List (String × String × Nat))
deriving Repr, DecidableEq

/-- A message-processing delegate (`agent_executor.arun`): from the input
text and user id to a response text, or an exception. -/
def Delegate : Type := String → String → Except String String

namespace PropertyManagementAgent

/-- The result dict of `process_message`. The success and error branches
build dicts with different key sets, so each field that is present in
only one branch is an `Option`, where `none` means the key is absent
from the dict. -/
structure MsgResult where
  response : String
  conversationIdField : Option (Option String)
  timestampField : Option Nat
  errorField : Option String
  status : String
deriving Repr, DecidableEq

/-- The fixed apologetic fallback text of the error branch of
`process_message`. -/
def fallbackMessage : String :=
  "I apologize, but I encountered an error processing your request. Please try again or contact support if the issue persists."

/-- The input handed to the delegate: when a context dict is present its
JSON rendering (modelled as an opaque string) is prepended to the
message, otherwise the raw message. -/
def enhanced_input (context : Option String) (message : String) : String :=
  match context with
  | some ctx => "Context: " ++ ctx ++ "\nUser message: " ++ message
  | none => message

/-- `PropertyManagementAgent._save_conversation`: the body opens a db
session and performs no writes (it is a stub whose body is `pass`);
exceptions are caught and logged, so the store is returned unchanged in
every case. -/
def save_conversation (db : ConvStore) (_user_id : String)
    (_conversation_id : Option String) (_user_message _ai_response : String) : ConvStore :=
  db

/-- `PropertyManagementAgent.process_message`: run the delegate on the
(possibly context-enhanced) input; on success save the conversation
(a no-op stub) and return the success dict echoing the input
conversation id; on any exception return the error dict with the fixed
fallback text, the stringified exception under the `error` key, and no
`conversation_id` or `timestamp` keys. -/
def process_message (delegate : Delegate) (db : ConvStore) (now : Nat)
    (message user_id : String) (conversation_id : Option String)
    (context : Option String) : MsgResult × ConvStore :=
  match delegate (enhanced_input context message) user_id with
  | Except.ok resp =>
      ({ response := resp
         conversationIdField := some conversation_id
         timestampField := some now
         errorField := none
         status := "success" },
       save_conversation db user_id conversation_id message resp)
  | Except.error e =>
      ({ response := fallbackMessage
         conversationIdField := none
         timestampField := none
         errorField := some e
         status := "error" }, db)

/-- `PropertyManagementAgent.get_suggested_actions`: builds an empty
suggestions list (every branch that would add to it is a stub comment)
and returns it; on exception returns the empty list as well. Each
suggestion would be a dict with an optional title. -/
def get_suggested_actions (_user_id : String) : List (Option String) := []

end PropertyManagementAgent

open PropertyManagementAgent in
/-- The full service state threaded through a request: the Redis client
(`none` when absent) and the conversation database. -/
structure ServiceState where
  redis : Option RedisState
  db : ConvStore
deriving Repr, DecidableEq

namespace ChatbotService

open PropertyManagementAgent

/-- The fixed backoff text of the rate-limited branch of `send_message`. -/
def rateLimitedMessage : String :=
  "You\x27re sending messages too quickly. Please wait a moment before trying again."

/-- `ChatbotService.send_message`: if `_is_rate_limited`, return the
rate-limited dict at once (it has only `response` and `status` keys);
otherwise run `process_message`, then `_update_rate_limit`, and return
the result. -/
def send_message (delegate : Delegate) (st : ServiceState) (now : Nat)
    (user_id message : String) (conversation_id : Option String)
    (context : Option String) : MsgResult × ServiceState :=
  if is_rate_limited st.redis now user_id then
    ({ response := rateLimitedMessage
       conversationIdField := none
       timestampField := none
       errorField := none
       status := "rate_limited" }, st)
  else
    let r := process_message delegate st.db now message user_id conversation_id context
    (r.1, { redis := update_rate_limit st.redis now user_id, db := r.2 })

end ChatbotService

namespace Routes

open PropertyManagementAgent

/-- The route's `ChatResponse` pydantic model. It has no `error` field:
its five fields are the only data the POST /chat caller receives. -/
structure ChatResponse where
  response : String
  conversation_id : Option String
  timestamp : Nat
  status : String
  suggestions : Option (List (Option String))
deriving Repr, DecidableEq

/-- Python truthiness of the optional conversation id: `None` and the
empty string are falsy (`if not message_data.conversation_id`). -/
def requestIdFalsy : Option String → Bool
  | none => true
  | some s => s.isEmpty

/-- The suggestions assembly of the POST /chat route: query the provider
only when the request's conversation id is falsy, and map a `None` or
empty list to `None` (`... if suggestions else None`), else the first 3
titles. -/
def route_suggestions (conversation_id : Option String) (user_id : String) :
    Option (List (Option String)) :=
  if requestIdFalsy conversation_id then
    let ss := get_suggested_actions user_id
    if ss.isEmpty then none else some (ss.take 3)
  else none

/-- The POST /chat handler (`send_message` in `routes/chatbot.py`): call
the service, then assemble a `ChatResponse` with `result.get` reads
(`conversation_id` defaults to `None`, `timestamp` to the current time)
and the suggestions assembly. -/
def route_send_message (delegate : Delegate) (st : ServiceState) (now : Nat)
    (user_id message : String) (conversation_id context : Option String) :
    ChatResponse × ServiceState :=
  let r := ChatbotService.send_message delegate st now user_id message conversation_id context
  ({ response := r.1.response
     conversation_id := r.1.conversationIdField.getD none
     timestamp := r.1.timestampField.getD now
     status := r.1.status
     suggestions := route_suggestions conversation_id user_id }, r.2)

/-- `json.dumps` of a result dict: renders exactly the keys present, in
the insertion order of the source dicts (`response`, then
`conversation_id`/`timestamp` on success or `error` on failure, then
`status`). -/
def jsonStringOfResult (r : MsgResult) : String :=
  let idPart :=
    match r.conversationIdField with
    | none => ""
    | some none => ", \x22conversation_id\x22: null"
    | some (some c) => ", \x22conversation_id\x22: \x22" ++ c ++ "\x22"
  let tsPart :=
    match r.timestampField with
    | none => ""
    | some t => ", \x22timestamp\x22: \x22" ++ toString t ++ "\x22"
  let errPart :=
    match r.errorField with
    | none => ""
    | some e => ", \x22error\x22: \x22" ++ e ++ "\x22"
  "\x7b\x22response\x22: \x22" ++ r.response ++ "\x22" ++ idPart ++ errPart ++ tsPart ++
    ", \x22status\x22: \x22" ++ r.status ++ "\x22\x7d"

/-- One loop iteration of the websocket handler (`websocket_chat`): call
the service and send `json.dumps(result)` — the full result dict,
whatever keys it has — back to the client as the outbound frame. -/
def websocket_chat_frame (delegate : Delegate) (st : ServiceState) (now : Nat)
    (user_id message : String) (conversation_id context : Option String) :
    String × ServiceState :=
  let r := ChatbotService.send_message delegate st now user_id message conversation_id context
  (jsonStringOfResult r.1, r.2)

end Routes

/-- A delegate that always succeeds with a fixed reply. -/
def okDelegate : Delegate := fun _ _ => Except.ok "ok"

/-- A delegate that always raises, with the given exception text. -/
def failDelegate (e : String) : Delegate := fun _ _ => Except.error e

/-- A fresh service state: Redis reachable with an empty store, empty
conversation database. -/
def freshState : ServiceState :=
  { redis := some { up := true, store := [] }
    db := { up := true, sessions := [] } }

/-- The service state after `n` admitted messages from `user_id`, all
inside the window opened at time `now`: one live Redis entry with count
`n` and expiry `now + 60`, and an untouched database. -/
def limitedState (user_id : String) (now n : Nat) : ServiceState :=
  { redis := some
      { up := true
        store := [(rateLimitKey user_id, { count := n, expiry := some (now + 60) })] }
    db := { up := true, sessions := [] } }

/-- Send `n` copies of a message through the service at time `now`,
collecting the response statuses in order. -/
def sendN (delegate : Delegate) (st : ServiceState) (now : Nat) (user_id : String) :
    Nat → ServiceState × List String
  | 0 => (st, [])
  | n + 1 =>
    let p := sendN delegate st now user_id n
    let r := ChatbotService.send_message delegate p.1 now user_id "hello" none none
    (r.2, p.2 ++ [r.1.status])

/-- The result dict of the rate-limited branch of `send_message`:
only the `response` and `status` keys are present. -/
def rateLimitedResult : PropertyManagementAgent.MsgResult :=
  { response := ChatbotService.rateLimitedMessage
    conversationIdField := none
    timestampField := none
    errorField := none
    status := "rate_limited" }

/-- The success result dict for a turn of `okDelegate` with no
conversation id in the request. -/
def okResult (now : Nat) : PropertyManagementAgent.MsgResult :=
  { response := "ok"
    conversationIdField := some none
    timestampField := some now
    errorField := none
    status := "success" }

theorem storeLookup_storeSet_self (l : List (String × RedisEntry)) (k : String)
    (v : RedisEntry) : storeLookup (storeSet l k v) k = some v := by
  induction l with
  | nil => simp [storeSet, storeLookup]
  | cons hd tl ih =>
    by_cases h : hd.1 = k
    · simp [storeSet, storeLookup, h]
    · simp [storeSet, storeLookup, h, ih]

theorem send_message_of_rate_limited (delegate : Delegate) (st : ServiceState)
    (now : Nat) (user_id message : String) (conversation_id context : Option String)
    (h : ChatbotService.is_rate_limited st.redis now user_id = true) :
    ChatbotService.send_message delegate st now user_id message conversation_id context
      = (rateLimitedResult, st) := by
  unfold ChatbotService.send_message
  simp [h, rateLimitedResult]

/-- **C4.** A request rejected by the rate limiter gets the fixed
backoff response dict with status `rate_limited`, the delegate is never
consulted (the outcome is the same for any two delegates), and the
whole service state — counter store and conversation database — is
returned unchanged. -/
theorem c4_rejected_short_circuit (d1 d2 : Delegate) (st : ServiceState)
    (now : Nat) (user_id message : String) (conversation_id context : Option String)
    (h : ChatbotService.is_rate_limited st.redis now user_id = true) :
    ChatbotService.send_message d1 st now user_id message conversation_id context
        = (rateLimitedResult, st)
      ∧ ChatbotService.send_message d1 st now user_id message conversation_id context
        = ChatbotService.send_message d2 st now user_id message conversation_id context := by
  rw [send_message_of_rate_limited d1 st now user_id message conversation_id context h,
    send_message_of_rate_limited d2 st now user_id message conversation_id context h]
  exact ⟨rfl, rfl⟩

/-- Witness for C4: a user with 31 admitted messages in the live window
is rate limited, and the rejection leaves the state unchanged. -/
theorem c4_rejected_short_circuit_witness :
    ChatbotService.send_message okDelegate (limitedState "u" 0 31) 0 "u" "hello" none none
      = (rateLimitedResult, limitedState "u" 0 31) :=
  (c4_rejected_short_circuit okDelegate okDelegate (limitedState "u" 0 31) 0 "u" "hello"
    none none (by decide)).1

/-- **C7.** When the counter store is absent or every store operation
raises, the admission check returns `false` (ADMIT, fail-open) and the
counter update returns the client unchanged: neither call propagates the
store error to the caller. -/
theorem c7_fail_open (client : Option RedisState) (now : Nat) (user_id : String)
    (h : client = none ∨ ∃ s, client = some s ∧ s.up = false) :
    ChatbotService.is_rate_limited client now user_id = false
      ∧ ChatbotService.update_rate_limit client now user_id = client := by
  rcases h with h | ⟨s, rfl, hs⟩
  · subst h
    exact ⟨rfl, rfl⟩
  · constructor
    · simp [ChatbotService.is_rate_limited, redisGet, hs]
    · simp [ChatbotService.update_rate_limit, redisIncr, hs]

/-- Witness for C7: a concrete unreachable store is fail-open. -/
theorem c7_fail_open_witness :
    ChatbotService.is_rate_limited (some { up := false, store := [] }) 5 "u" = false
      ∧ ChatbotService.update_rate_limit (some { up := false, store := [] }) 5 "u"
        = some { up := false, store := [] } :=
  c7_fail_open (some { up := false, store := [] }) 5 "u"
    (Or.inr ⟨{ up := false, store := [] }, rfl, rfl⟩)

/-- **C8.** A rejected request leaves the service state — in particular
the user's rate-limit record — exactly as it was: the counter is not
incremented and the expiry is not extended. -/
theorem c8_rejection_preserves_state (delegate : Delegate) (st : ServiceState)
    (now : Nat) (user_id message : String) (conversation_id context : Option String)
    (h : ChatbotService.is_rate_limited st.redis now user_id = true) :
    (ChatbotService.send_message delegate st now user_id message
        conversation_id context).2 = st := by
  rw [send_message_of_rate_limited delegate st now user_id message conversation_id context h]

/-- Witness for C8: the rejected 32nd message of a concrete over-limit
user does not modify the rate-limit record. -/
theorem c8_rejection_preserves_state_witness :
    (ChatbotService.send_message okDelegate (limitedState "u" 7 31) 7 "u" "hello"
        none none).2 = limitedState "u" 7 31 :=
  c8_rejection_preserves_state okDelegate (limitedState "u" 7 31) 7 "u" "hello"
    none none (by decide)

/-- **C10.** Every POST /chat response has `suggestions = none`: the
suggested-actions provider always returns the empty list and the route
maps an empty (falsy) list to `None`. -/
theorem c10_suggestions_always_none (delegate : Delegate) (st : ServiceState)
    (now : Nat) (user_id message : String) (conversation_id context : Option String) :
    (Routes.route_send_message delegate st now user_id message
        conversation_id context).1.suggestions = none := by
  unfold Routes.route_send_message
  simp [Routes.route_suggestions, PropertyManagementAgent.get_suggested_actions]

/-- **C2, counterexample.** A concrete POST /chat request with
`conversation_id: null` whose delegate succeeds gets a response whose
`conversation_id` is `none`, not a freshly minted non-null id. -/
theorem c2_counterexample :
    (Routes.route_send_message okDelegate freshState 0 "u1" "hello" none none).1.conversation_id
      = none := by
  rfl

/-- **C2, amended.** For every request whose `conversation_id` is
absent, the response's `conversation_id` is `none`: no id is ever
minted — the service echoes the input id on success and omits the key on
error or rejection, and the route defaults the missing key to `None`. -/
theorem c2_amended (delegate : Delegate) (st : ServiceState) (now : Nat)
    (user_id message : String) (context : Option String) :
    (Routes.route_send_message delegate st now user_id message none context).1.conversation_id
      = none := by
  unfold Routes.route_send_message ChatbotService.send_message
  by_cases h : ChatbotService.is_rate_limited st.redis now user_id
  · simp [h]
  · simp only [h]
    unfold PropertyManagementAgent.process_message
    cases delegate (PropertyManagementAgent.enhanced_input context message) user_id <;> simp

/-- **C3, counterexample.** A delegate failure with exception text
`boom` produces a websocket frame that carries the raw exception text in
its `error` field: the frame sent to the caller is exactly this string,
with `boom` visible in it. -/
theorem c3_counterexample :
    (Routes.websocket_chat_frame (failDelegate "boom") freshState 0 "u" "hi" none none).1
      = "\x7b\x22response\x22: \x22I apologize, but I encountered an error processing your request. Please try again or contact support if the issue persists.\x22, \x22error\x22: \x22boom\x22, \x22status\x22: \x22error\x22\x7d" := by
  rfl

/-- **C3, amended.** For every admitted request whose delegate raises,
the response text is the fixed apologetic fallback and the status is
`error`; the POST /chat `ChatResponse` has no error field, but the
result dict's `error` key holds the raw exception text, which the
websocket path serializes to the caller. -/
theorem c3_amended (e : String) (st : ServiceState) (now : Nat)
    (user_id message : String) (conversation_id context : Option String)
    (h : ChatbotService.is_rate_limited st.redis now user_id = false) :
    ((Routes.route_send_message (failDelegate e) st now user_id message
          conversation_id context).1.response = PropertyManagementAgent.fallbackMessage
      ∧ (Routes.route_send_message (failDelegate e) st now user_id message
          conversation_id context).1.status = "error")
      ∧ (ChatbotService.send_message (failDelegate e) st now user_id message
          conversation_id context).1.errorField = some e := by
  unfold Routes.route_send_message ChatbotService.send_message
  simp [h, PropertyManagementAgent.process_message, failDelegate]

/-- Witness for C3 (amended): a concrete admitted failing turn. -/
theorem c3_amended_witness :
    ((Routes.route_send_message (failDelegate "boom") freshState 0 "u" "hi"
          none none).1.response = PropertyManagementAgent.fallbackMessage
      ∧ (Routes.route_send_message (failDelegate "boom") freshState 0 "u" "hi"
          none none).1.status = "error")
      ∧ (ChatbotService.send_message (failDelegate "boom") freshState 0 "u" "hi"
          none none).1.errorField = some "boom" :=
  c3_amended "boom" freshState 0 "u" "hi" none none (by decide)

/-- **C5, counterexample.** Two counter updates for the same user, one
at time 0 creating the record and one at time 10 on the existing record:
the second update moves the expiry from 60 to 70, so the expiry is
refreshed on an existing record, not only when it is newly created. -/
theorem c5_counterexample :
    ChatbotService.update_rate_limit
        (ChatbotService.update_rate_limit (some { up := true, store := [] }) 0 "u") 10 "u"
      = some { up := true, store := [("rate_limit:u", { count := 2, expiry := some 70 })] } := by
  rfl

/-- An update of the store at a key is observed by a lookup at that key,
filtered by liveness. -/
theorem redisLookup_set (u : Bool) (l : List (String × RedisEntry)) (now : Nat)
    (k : String) (v : RedisEntry) :
    redisLookup { up := u, store := storeSet l k v } now k
      = if entryLive now v then some v else none := by
  simp [redisLookup, storeLookup_storeSet_self]

/-- A successful live lookup implies the entry is live. -/
theorem entryLive_of_redisLookup {s : RedisState} {now : Nat} {k : String}
    {e : RedisEntry} (h : redisLookup s now k = some e) : entryLive now e = true := by
  rw [redisLookup] at h
  cases hm : storeLookup s.store k with
  | none => simp [hm] at h
  | some e0 =>
    simp only [hm] at h
    by_cases hl : entryLive now e0 = true
    · simp only [hl, if_true] at h
      cases h
      exact hl
    · simp [hl] at h

/-- **C5, amended.** On every admitted message with a reachable store,
the counter at the user's key is incremented by 1 (from the live count,
or from 0 when the record was absent or expired) and the expiry is set
to now + 60 on every call — refreshed on existing records as well, not
only when the record is newly created. -/
theorem c5_amended (s : RedisState) (now : Nat) (user_id : String) (h : s.up = true) :
    ∃ s2, ChatbotService.update_rate_limit (some s) now user_id = some s2
      ∧ redisLookup s2 now (rateLimitKey user_id)
        = some { count := ((redisLookup s now (rateLimitKey user_id)).map
                    (fun e => e.count)).getD 0 + 1
                 expiry := some (now + 60) } := by
  have hlt : now < now + 60 := by omega
  cases hL : redisLookup s now (rateLimitKey user_id) with
  | some e =>
    have hlive0 : entryLive now e = true := entryLive_of_redisLookup hL
    have hlive : entryLive now ({ count := e.count + 1, expiry := e.expiry } : RedisEntry)
        = true := hlive0
    refine ⟨{ up := true
              store := storeSet (storeSet s.store (rateLimitKey user_id)
                  { count := e.count + 1, expiry := e.expiry }) (rateLimitKey user_id)
                  { count := e.count + 1, expiry := some (now + 60) } }, ?_, ?_⟩
    · simp [ChatbotService.update_rate_limit, redisIncr, redisExpire, h, hL,
        redisLookup_set, hlive]
    · simp [redisLookup_set, entryLive, hlt, hL]
  | none =>
    refine ⟨{ up := true
              store := storeSet (storeSet s.store (rateLimitKey user_id)
                  { count := 1, expiry := none }) (rateLimitKey user_id)
                  { count := 1, expiry := some (now + 60) } }, ?_, ?_⟩
    · simp [ChatbotService.update_rate_limit, redisIncr, redisExpire, h, hL,
        redisLookup_set, entryLive]
    · simp [redisLookup_set, entryLive, hlt, hL]

/-- Witness for C5 (amended): a concrete reachable store with a live
record of count 3; the update takes it to count 4 with expiry 70. -/
theorem c5_amended_witness :
    ∃ s2, ChatbotService.update_rate_limit
          (some { up := true, store := [("rate_limit:u", { count := 3, expiry := some 60 })] })
          10 "u" = some s2
      ∧ redisLookup s2 10 (rateLimitKey "u")
        = some { count := ((redisLookup
              { up := true, store := [("rate_limit:u", { count := 3, expiry := some 60 })] }
              10 (rateLimitKey "u")).map (fun e => e.count)).getD 0 + 1
                 expiry := some (10 + 60) } :=
  c5_amended { up := true, store := [("rate_limit:u", { count := 3, expiry := some 60 })] }
    10 "u" rfl

/-- **C6, counterexample.** A concrete admitted turn whose delegate
succeeds leaves the conversation database completely empty: the
(user message, delegate response, timestamp) pair is not appended to any
session's message list. -/
theorem c6_counterexample :
    (ChatbotService.send_message okDelegate freshState 0 "u" "hello" (some "c1") none).2.db
      = { up := true, sessions := [] } := by
  rfl

/-- **C6, amended.** For every turn whose delegate succeeds,
`process_message` returns the success result and the conversation store
exactly unchanged: `_save_conversation` is an unimplemented stub that
writes nothing, and since it swallows its own failures the computed
response is returned unchanged whether the store is up or down. -/
theorem c6_amended (delegate : Delegate) (db : ConvStore) (now : Nat)
    (message user_id : String) (conversation_id context : Option String) (resp : String)
    (h : delegate (PropertyManagementAgent.enhanced_input context message) user_id
      = Except.ok resp) :
    PropertyManagementAgent.process_message delegate db now message user_id
        conversation_id context
      = ({ response := resp
           conversationIdField := some conversation_id
           timestampField := some now
           errorField := none
           status := "success" }, db) := by
  unfold PropertyManagementAgent.process_message
  rw [h]
  rfl

/-- Witness for C6 (amended): a concrete successful turn against a down
database returns the response and the store unchanged. -/
theorem c6_amended_witness :
    PropertyManagementAgent.process_message okDelegate { up := false, sessions := [] } 3
        "hello" "u" (some "c1") none
      = ({ response := "ok"
           conversationIdField := some (some "c1")
           timestampField := some 3
           errorField := none
           status := "success" }, { up := false, sessions := [] }) :=
  c6_amended okDelegate { up := false, sessions := [] } 3 "hello" "u" (some "c1") none "ok" rfl

/-- **C9, counterexample.** A concrete request carrying conversation id
`c1` whose delegate raises gets a response whose `conversation_id` is
`none`, not the input id: the error dict has no `conversation_id` key
and the route defaults it to `None`. -/
theorem c9_counterexample :
    (Routes.route_send_message (failDelegate "boom") freshState 0 "u" "hi"
        (some "c1") none).1.conversation_id = none := by
  rfl

/-- **C9, amended.** For every admitted request carrying a
conversation id whose delegate succeeds, the response's
`conversation_id` equals the input id; and the response's `suggestions`
field is `none` (the route only queries suggestions for falsy ids, and
the provider returns an empty list anyway). -/
theorem c9_amended (delegate : Delegate) (st : ServiceState) (now : Nat)
    (user_id message c : String) (context : Option String) (resp : String)
    (h : ChatbotService.is_rate_limited st.redis now user_id = false)
    (hd : delegate (PropertyManagementAgent.enhanced_input context message) user_id
      = Except.ok resp) :
    (Routes.route_send_message delegate st now user_id message (some c)
        context).1.conversation_id = some c
      ∧ (Routes.route_send_message delegate st now user_id message (some c)
        context).1.suggestions = none := by
  unfold Routes.route_send_message ChatbotService.send_message
  simp [h, PropertyManagementAgent.process_message, hd, Routes.route_suggestions,
    PropertyManagementAgent.get_suggested_actions]

/-- Witness for C9 (amended): a concrete admitted successful turn with
conversation id `c1` echoes `c1` and carries no suggestions. -/
theorem c9_amended_witness :
    (Routes.route_send_message okDelegate freshState 0 "u" "hi" (some "c1")
        none).1.conversation_id = some "c1"
      ∧ (Routes.route_send_message okDelegate freshState 0 "u" "hi" (some "c1")
        none).1.suggestions = none :=
  c9_amended okDelegate freshState 0 "u" "hi" "c1" none "ok" (by decide) rfl

theorem is_rate_limited_fresh (user_id : String) (now : Nat) :
    ChatbotService.is_rate_limited freshState.redis now user_id = false := by
  simp [ChatbotService.is_rate_limited, freshState, redisGet, redisLookup, storeLookup]

/-- With a live record of count `n`, the admission check rejects exactly
when `n > 30`. -/
theorem is_rate_limited_limited (user_id : String) (now n : Nat) :
    ChatbotService.is_rate_limited (limitedState user_id now n).redis now user_id
      = decide (n > 30) := by
  have hlt : now < now + 60 := by omega
  simp [ChatbotService.is_rate_limited, limitedState, redisGet, redisLookup, storeLookup,
    entryLive, hlt]

/-- The first admitted message of a window creates the record with count
1 and expiry `now + 60`. -/
theorem send_message_fresh (user_id : String) (now : Nat) :
    ChatbotService.send_message okDelegate freshState now user_id "hello" none none
      = (okResult now, limitedState user_id now 1) := by
  simp [ChatbotService.send_message, ChatbotService.is_rate_limited,
    ChatbotService.update_rate_limit, freshState, limitedState, okResult, okDelegate,
    PropertyManagementAgent.process_message, PropertyManagementAgent.save_conversation,
    PropertyManagementAgent.enhanced_input, redisGet, redisIncr, redisExpire,
    redisLookup, storeLookup, storeSet, entryLive]

/-- An admitted message on a live record of count `n ≤ 30` succeeds and
takes the record to count `n + 1` with the expiry refreshed. -/
theorem send_message_step (user_id : String) (now n : Nat) (hn : n ≤ 30) :
    ChatbotService.send_message okDelegate (limitedState user_id now n) now user_id
        "hello" none none
      = (okResult now, limitedState user_id now (n + 1)) := by
  have hlt : now < now + 60 := by omega
  have hng : ¬ (30 < n) := by omega
  simp [ChatbotService.send_message, ChatbotService.is_rate_limited,
    ChatbotService.update_rate_limit, limitedState, okResult, okDelegate,
    PropertyManagementAgent.process_message, PropertyManagementAgent.save_conversation,
    PropertyManagementAgent.enhanced_input, redisGet, redisIncr, redisExpire,
    redisLookup, storeLookup, storeSet, entryLive, hlt, hng]

theorem sendN_zero (delegate : Delegate) (st : ServiceState) (now : Nat)
    (user_id : String) : sendN delegate st now user_id 0 = (st, []) := rfl

theorem sendN_succ (delegate : Delegate) (st : ServiceState) (now : Nat)
    (user_id : String) (n : Nat) :
    sendN delegate st now user_id (n + 1)
      = ((ChatbotService.send_message delegate (sendN delegate st now user_id n).1
            now user_id "hello" none none).2,
         (sendN delegate st now user_id n).2
           ++ [(ChatbotService.send_message delegate (sendN delegate st now user_id n).1
            now user_id "hello" none none).1.status]) := rfl

/-- The first `n + 1 ≤ 31` messages of a window from a fresh state are
all admitted, leaving a record of count `n + 1`. -/
theorem sendN_fresh_eq (user_id : String) (now : Nat) :
    ∀ n, n + 1 ≤ 31 →
      sendN okDelegate freshState now user_id (n + 1)
        = (limitedState user_id now (n + 1), List.replicate (n + 1) "success")
  | 0, _ => by
    rw [sendN_succ, sendN_zero]
    simp [send_message_fresh, okResult]
  | n + 1, h => by
    have ih := sendN_fresh_eq user_id now n (by omega)
    have hstep := send_message_step user_id now (n + 1) (by omega)
    rw [sendN_succ, ih]
    simp [hstep, okResult, List.replicate_succ']

/-- **C1, counterexample.** From a fresh state, a concrete user sending
31 messages inside one window has every one of them admitted — the 31st
is ADMIT with status `success`, not REJECT: the check `count > 30` runs
on the pre-increment count, so rejection starts at the 32nd message. -/
theorem c1_counterexample :
    (sendN okDelegate freshState 0 "u" 31).2 = List.replicate 31 "success" := by
  rfl

/-- **C1, amended.** For every user and window start, sending 32
messages within one 60-unit window yields ADMIT (status `success`) for
the first 31 and REJECT (status `rate_limited`) for the 32nd; once the
window has elapsed the record is expired, so the next message is
admitted again. -/
theorem c1_amended (user_id : String) (now : Nat) :
    (sendN okDelegate freshState now user_id 32).2
        = List.replicate 31 "success" ++ ["rate_limited"]
      ∧ (ChatbotService.send_message okDelegate
          (sendN okDelegate freshState now user_id 32).1 (now + 60) user_id
          "hello" none none).1.status = "success" := by
  have h31 : sendN okDelegate freshState now user_id 31
      = (limitedState user_id now 31, List.replicate 31 "success") := by
    have h := sendN_fresh_eq user_id now 30 (by omega)
    norm_num at h
    exact h
  have hrej : ChatbotService.is_rate_limited (limitedState user_id now 31).redis now user_id
      = true := by
    rw [is_rate_limited_limited]
    decide
  have h32 : sendN okDelegate freshState now user_id 32
      = (limitedState user_id now 31, List.replicate 31 "success" ++ ["rate_limited"]) := by
    have e32 : (32 : Nat) = 31 + 1 := by norm_num
    rw [e32, sendN_succ, h31]
    simp [send_message_of_rate_limited okDelegate (limitedState user_id now 31)
      now user_id "hello" none none hrej, rateLimitedResult]
  refine ⟨by rw [h32], ?_⟩
  rw [h32]
  have hexp : ChatbotService.is_rate_limited (limitedState user_id now 31).redis (now + 60)
      user_id = false := by
    simp [ChatbotService.is_rate_limited, limitedState, redisGet, redisLookup,
      storeLookup, entryLive]
  unfold ChatbotService.send_message
  rw [hexp]
  simp [PropertyManagementAgent.process_message, okDelegate]
